import Mathlib

/-!
Verification of the Selenoid web-scraper core (`src/scraper.py`,
class `SelenoidWebScraper`): the `_safe_get` retry engine, the
session-lifecycle bookkeeping of `start` / `stop` / `_fetch_url`,
the content-extraction pipeline (`_remove_unwanted_elements`,
`_extract_text_from_paragraphs`, `_extract_paragraphs`) and the
`scrape` orchestrator, shallowly embedded in Lean.
-/

set_option autoImplicit false

namespace Selenoid

/-! ## Selenium exception classes caught by the scraper

`_safe_get` catches the tuple `(TimeoutException, WebDriverException,
InvalidSessionIdException)`.  `InvalidArgumentException` (raised by the
remote end for a malformed URL) is a subclass of `WebDriverException`,
so it is caught by the same clause; we track it as its own kind. -/

inductive SelExc where
  | timeoutExc
  | webDriverExc
  | invalidSessionExc
  | invalidArgumentExc
  deriving DecidableEq, Repr

/-- Kinds the spec calls transient-session failures (navigation timeout,
lost/invalid session, generic remote-automation fault). -/
def SelExc.isTransientSession : SelExc → Bool
  | .invalidArgumentExc => false
  | _ => true

/-- Outcome of one invocation of the navigation command (`method(*args)`
inside `_safe_get`): either it returns, or it raises a Selenium exception. -/
inductive NavOutcome where
  | success
  | failure (e : SelExc)
  deriving DecidableEq, Repr

/-! ## The retry loop of `_safe_get` (control-flow model)

`nav i` gives the outcome of the navigation command on attempt `i`
(0-based).  The loop of `_safe_get` runs while `retries < 3`; on a caught
exception it increments `retries` and, if `retries < 3` still holds,
tears the current driver down (`self.stop`) and starts a replacement
(`self.start`).  We return `(result, attempts, replacements)` where
`attempts` counts invocations of the navigation command and
`replacements` counts stop-and-start pairs.  The fuel argument is
`3 - retries`. -/

def safeGetLoop (nav : Nat → NavOutcome) : Nat → Nat → Bool × Nat × Nat
  | _, 0 => (false, 0, 0)
  | i, f + 1 =>
    match nav i with
    | .success => (true, 1, 0)
    | .failure _ =>
      if f = 0 then (false, 1, 0)
      else
        let r := safeGetLoop nav (i + 1) f
        (r.1, r.2.1 + 1, r.2.2 + 1)

/-- `_safe_get`: at most 3 attempts, starting from `retries = 0`. -/
def safeGet (nav : Nat → NavOutcome) : Bool × Nat × Nat :=
  safeGetLoop nav 0 3

/-- A navigation command that always fails with the malformed-URL
exception (`InvalidArgumentException`, a `WebDriverException`). -/
def navMalformed : Nat → NavOutcome :=
  fun _ => .failure .invalidArgumentExc

/-! ## Python string helpers used by the extractor -/

/-- Characters stripped by Python `str.strip()` (ASCII whitespace). -/
def isPyWs (c : Char) : Bool :=
  (c == ' ') || (c == '\t') || (c == '\n') || (c == '\r') || (c == '\x0b') || (c == '\x0c')

/-- Python `s.strip()`: drop whitespace from both ends. -/
def pyStrip (s : String) : String :=
  String.mk (((s.data.dropWhile isPyWs).reverse.dropWhile isPyWs).reverse)

/-- Python `"\n".join(l)`. -/
def pyJoinNL : List String → String
  | [] => ""
  | [s] => s
  | s :: ss => s ++ ("\n" ++ pyJoinNL ss)

/-- `true` when the string contains no tag-bracket character, i.e. no markup. -/
def cleanStr (s : String) : Bool :=
  s.data.all (fun c => (c != '<') && (c != '>'))

/-! ## The DOM model

A parsed sibling sequence of DOM nodes as BeautifulSoup hands it to the
extractor, in first-child/next-sibling form: a forest is empty, or a
text node followed by its siblings, or an element — tag name, the
(whitespace-split) list of its `class` attribute values, an optional
`id` attribute, and its children — followed by its siblings.  The body
element itself is represented by the forest of its children: all the
extractor's operations on `body` (`find_all`, `select`, `get_text`)
work on its descendants. -/

inductive Forest where
  | nil
  | textCons (s : String) (rest : Forest)
  | elemCons (tag : String) (classes : List String) (idAttr : Option String)
      (children : Forest) (rest : Forest)
  deriving DecidableEq, Repr

/-- Concatenation of two sibling sequences. -/
def appendF : Forest → Forest → Forest
  | .nil, g => g
  | .textCons s r, g => .textCons s (appendF r g)
  | .elemCons t c i cs r, g => .elemCons t c i cs (appendF r g)

/-- `get_text()`: concatenation of all text nodes in document order, no
separator (BeautifulSoup `get_text`).  An element's text is the text of
its children. -/
def getText : Forest → String
  | .nil => ""
  | .textCons s r => s ++ getText r
  | .elemCons _ _ _ cs r => getText cs ++ getText r

/-! ## `_remove_unwanted_elements` -/

/-- The `unwanted_patterns` set from `_remove_unwanted_elements`. -/
def unwantedPatterns : List String :=
  ["ads", "advertisement", "cookie", "cookies", "cookie-banner",
   "branda-cookie-notice", "banner", "widget", "notice", "cookie-notice",
   "footer", "subs", "header", "sidemenu", "sidebar", "bar", "menu",
   "navbar", "nav", "navigation", "tracker", "tracking", "promo",
   "promotion", "sponsor", "sponsored", "ad-slot", "ad-wrapper",
   "ad-container", "adbox", "popup", "pop-up", "social", "share",
   "sharing", "comments", "disqus", "fb", "twitter", "instagram",
   "widgetbox", "login", "signup", "subscribe", "related", "gallery",
   "breadcrumb", "bottom", "label", "modal-content"]

/-- The `direct_tags_to_remove` set from `_remove_unwanted_elements`. -/
def unwantedTags : List String :=
  ["header", "footer", "nav", "script", "style", "form", "button", "iframe"]

/-- Whether `_remove_unwanted_elements` decomposes an element: its tag
name is in `direct_tags_to_remove`, or some denylist pattern equals one
of its `class` attribute values or its whole `id` attribute
(`find_all(True, {attr: pattern})` — BeautifulSoup matches `class`
against each whitespace-separated class value and `id` against the full
attribute, exact string equality, never substring containment). -/
def isUnwanted (tag : String) (classes : List String) (idAttr : Option String) : Bool :=
  unwantedTags.contains tag ||
    unwantedPatterns.any (fun p => classes.contains p || idAttr == some p)

/-- Net effect of `_remove_unwanted_elements(body)` on the descendants
of `body`: every element matching `isUnwanted` is decomposed (removed
with its whole subtree).  The passes over tag names and patterns commute
because matching is local to each element's own name and attributes;
`find_all` searches descendants only, so the body element itself is
never removed. -/
def removeUnwanted : Forest → Forest
  | .nil => .nil
  | .textCons s r => .textCons s (removeUnwanted r)
  | .elemCons t c i cs r =>
    if isUnwanted t c i then removeUnwanted r
    else .elemCons t c i (removeUnwanted cs) (removeUnwanted r)

/-! ## `select` -/

/-- `body.select(t)`: all descendant elements with tag name `t`, in
document order (an element precedes its own descendants), each selected
element keeping its children. -/
def selectTag (t : String) : Forest → Forest
  | .nil => .nil
  | .textCons _ r => selectTag t r
  | .elemCons tg c i cs r =>
    if tg = t
    then .elemCons tg c i cs (appendF (selectTag t cs) (selectTag t r))
    else appendF (selectTag t cs) (selectTag t r)

/-! ## `_extract_text_from_paragraphs` and `_extract_paragraphs` -/

/-- `p.get_text().strip()` for each node of a sibling sequence of
selected elements, in order. -/
def stripTexts : Forest → List String
  | .nil => []
  | .textCons s r => pyStrip s :: stripTexts r
  | .elemCons _ _ _ cs r => pyStrip (getText cs) :: stripTexts r

/-- `"\n".join(p.get_text().strip() for p in paragraphs)`. -/
def extractTextFromParagraphs (paragraphs : Forest) : String :=
  pyJoinNL (stripTexts paragraphs)

/-- The primary paragraph/span extraction of `_extract_paragraphs`:
after noise removal, the joined trimmed text of
`itertools.chain(body.select("p"), body.select("span"))` (paragraphs
first, then spans), then `.strip()`. -/
def primaryText (body : Forest) : String :=
  pyStrip (extractTextFromParagraphs
    (appendF (selectTag "p" (removeUnwanted body)) (selectTag "span" (removeUnwanted body))))

/-- Body of `_extract_paragraphs` once a body element was found: noise
removal, primary extraction, and the `len(text) < 1000` fallback to
`body.get_text().strip()` on the (noise-removed) body. -/
def extractFromBody (body : Forest) : String :=
  if (primaryText body).length < 1000
  then pyStrip (getText (removeUnwanted body))
  else primaryText body

/-- `_extract_paragraphs(page_source)`: `None` and the empty string are
falsy (`if not page_source`); then the page is parsed and the body
located (`parse` stands for `BeautifulSoup(page_source, "lxml").body`,
an external library call, returning the children of the body element);
`None` when there is no body. -/
def extractParagraphs (parse : String → Option Forest) (page_source : Option String) :
    Option String :=
  match page_source with
  | none => none
  | some src =>
    if src.isEmpty then none
    else (parse src).map extractFromBody

/-! ## `scrape` -/

/-- The in-band sentinel `_fetch_url` and `scrape` use for an
unresponsive site. -/
def siteNotResponding : String := "This site is not responding."

/-- The in-band sentinel `scrape` returns for content below the quality
gate. -/
def irrelevantInfo : String := "This result doesn`t contain relevant information."

/-- The orchestration in `scrape` after `_fetch_url` produced
`page_source`: the sentinel short-circuit, extraction, Python truthiness
of the extracted text (`if text_from_paragraphs:`), and the
1000-character quality gate. -/
def scrapeCore (parse : String → Option Forest) (page_source : Option String) :
    Option String :=
  if page_source = some siteNotResponding then page_source
  else
    match extractParagraphs parse page_source with
    | some t =>
      if t = "" then none
      else if t.length < 1000 then some irrelevantInfo
      else some t
    | none => none

/-! ## Session lifecycle and the full `_fetch_url` / `scrape` path

Sessions are numbered by creation order.  The state records the next
fresh id, which sessions are currently open at the remote endpoint, and
how many `quit` calls (`stop`) and session creations (`start`) reached
the endpoint. -/

structure St where
  nextId : Nat
  openIds : List Nat
  quits : Nat
  starts : Nat
  deriving DecidableEq, Repr

/-- Initial state: no sessions. -/
def sigma0 : St := ⟨0, [], 0, 0⟩

/-- Behaviour of the remote automation endpoint for one `scrape` run:
whether the i-th session creation succeeds, the outcome of the i-th
invocation of the navigation command on an open session, the outcome of
the ready-state wait, and the page source served on success. -/
inductive ReadyOut where
  | complete
  | timedOut
  | wdFault
  deriving DecidableEq, Repr

structure Endpoint where
  createOk : Nat → Bool
  navOk : Nat → Bool
  ready : ReadyOut
  src : String

/-- Exceptions that can cross the modelled function boundaries.  All are
Selenium `WebDriverException`s (`TimeoutException` and
`InvalidSessionIdException` are subclasses). -/
inductive Exc where
  | timeoutExc
  | webDriverExc
  | invalidSessionExc
  deriving DecidableEq, Repr

/-- `start()`: `webdriver.Remote(...)` either creates a fresh session or
raises `WebDriverException` (endpoint unreachable / configuration
rejected); the page-load timeout, anti-detection script and the
randomized human-like interactions run on the new session. -/
def startE (ep : Endpoint) (σ : St) : Except Exc Nat × St :=
  if ep.createOk σ.starts then
    (.ok σ.nextId,
      { nextId := σ.nextId + 1, openIds := σ.openIds ++ [σ.nextId],
        quits := σ.quits, starts := σ.starts + 1 })
  else
    (.error .webDriverExc, { σ with starts := σ.starts + 1 })

/-- `stop(driver)`: `driver.quit()` always reaches the endpoint; on an
already-closed session it raises `InvalidSessionIdException`, and the
`except (WebDriverException, InvalidSessionIdException)` clause swallows
every such failure, so `stop` itself never raises here. -/
def stopE (d : Nat) (σ : St) : St :=
  { σ with openIds := σ.openIds.erase d, quits := σ.quits + 1 }

/-- One invocation of `method(*args)` inside `_safe_get`.  `method` is
the bound method `driver.get` of the ORIGINAL driver `d0` passed by
`_fetch_url`, so the call targets `d0` on every attempt: it can only
succeed while `d0` is still open; on a closed `d0` it raises
`InvalidSessionIdException`, which the retry clause catches. -/
def navCall (ep : Endpoint) (d0 : Nat) (i : Nat) (σ : St) : Bool :=
  σ.openIds.contains d0 && ep.navOk i

/-- The retry loop of `_safe_get` with session bookkeeping: `drv` is the
local `driver` variable (rebound to each replacement), `d0` the driver
the navigation command is bound to, `i` the attempt index, fuel
`3 - retries`.  A replacement `self.start()` can itself raise, and that
exception propagates out of `_safe_get`. -/
def safeGetE (ep : Endpoint) (d0 : Nat) : Nat → Nat → Nat → St → Except Exc Bool × St
  | _, _, 0, σ => (.ok false, σ)
  | drv, i, f + 1, σ =>
    if navCall ep d0 i σ then (.ok true, σ)
    else if f = 0 then (.ok false, σ)
    else
      match startE ep (stopE drv σ) with
      | (.ok d2, σ2) => safeGetE ep d0 d2 (i + 1) f σ2
      | (.error e, σ2) => (.error e, σ2)

/-- The part of `_fetch_url` inside `try`/`except`/`finally`, given the
result of `_safe_get`: `False` yields the unresponsive sentinel; a
`TimeoutException` (from `WebDriverWait`) yields the sentinel; any other
`WebDriverException` yields `None`; on success the ready-state wait runs
and the page source is read.  The `finally` clause stops `_fetch_url`'s
own `driver` variable, which still holds the ORIGINAL session `d0`
(rebinding the parameter inside `_safe_get` never updates it). -/
def handleAfterNav (ep : Endpoint) (d0 : Nat) : Except Exc Bool × St → Option String × St
  | (.error .timeoutExc, σ) => (some siteNotResponding, stopE d0 σ)
  | (.error _, σ) => (none, stopE d0 σ)
  | (.ok false, σ) => (some siteNotResponding, stopE d0 σ)
  | (.ok true, σ) =>
    match ep.ready with
    | .complete => (some ep.src, stopE d0 σ)
    | .timedOut => (some siteNotResponding, stopE d0 σ)
    | .wdFault => (none, stopE d0 σ)

/-- `_fetch_url(url)`: `driver = self.start()` runs BEFORE the `try`
block, so a creation failure propagates uncaught; afterwards every
modelled exception is handled and the result is an ordinary value. -/
def fetchUrlE (ep : Endpoint) (σ : St) : Except Exc (Option String) × St :=
  match startE ep σ with
  | (.error e, σ1) => (.error e, σ1)
  | (.ok d0, σ1) =>
    let r := handleAfterNav ep d0 (safeGetE ep d0 d0 0 3 σ1)
    (.ok r.1, r.2)

/-- `scrape(url)` end to end: fetch, then the sentinel check, extraction
and quality gate of `scrapeCore`; an exception from `_fetch_url`
propagates (there is no handler in `scrape`). -/
def scrapeE (ep : Endpoint) (parse : String → Option Forest) (σ : St) :
    Except Exc (Option String) × St :=
  match fetchUrlE ep σ with
  | (.error e, σ1) => (.error e, σ1)
  | (.ok ps, σ1) => (.ok (scrapeCore parse ps), σ1)

/-- Whether a `scrape` run resolved to an ordinary (typed) outcome
rather than propagating an exception. -/
def isOkE (r : Except Exc (Option String)) : Bool :=
  match r with
  | .ok _ => true
  | .error _ => false

/-! ## Fine-grained model of `stop` for teardown-error handling -/

/-- What `driver.quit()` does on one call. -/
inductive QuitBehavior where
  | quitOk
  | sessionGone
  | otherWebDriver
  | nonWebDriverFault
  deriving DecidableEq, Repr

/-- How a call to `stop` terminates.  `raisedTeardown` is the
`SessionTeardownError` wrapping the spec prescribes; the code never
produces it.  `raisedRaw` is the original exception propagating
unwrapped. -/
inductive StopOutcome where
  | returned
  | raisedTeardown
  | raisedRaw
  deriving DecidableEq, Repr

/-- `stop(driver)`: `try: driver.quit() except (WebDriverException,
InvalidSessionIdException): print(...)`.  The except clause swallows the
session-already-gone failure AND every other `WebDriverException`; only
an exception outside that hierarchy escapes, unwrapped. -/
def stopModel : QuitBehavior → StopOutcome
  | .quitOk => .returned
  | .sessionGone => .returned
  | .otherWebDriver => .returned
  | .nonWebDriverFault => .raisedRaw

/-- What `quit` does as a function of whether the session is still open:
the first `stop` quits an open session normally; a second `stop` on the
now-closed session raises `InvalidSessionIdException`. -/
def quitBehaviorOf (isOpen : Bool) : QuitBehavior :=
  if isOpen then .quitOk else .sessionGone

/-! ## Serialization (raw HTML of a tree) and concrete fixtures -/

/-- Canonical raw HTML of a sibling sequence: what the parser read to
produce it. -/
def serializeForest : Forest → String
  | .nil => ""
  | .textCons s r => s ++ serializeForest r
  | .elemCons t cls idA cs r =>
    "<" ++ t ++
      (if cls = [] then "" else " class=\"" ++ String.intercalate " " cls ++ "\"") ++
      (match idA with | none => "" | some v => " id=\"" ++ v ++ "\"") ++
      ">" ++ serializeForest cs ++ "</" ++ t ++ ">" ++ serializeForest r

/-- Canonical raw HTML of a whole page whose body has the given
children. -/
def serializeBody (children : Forest) : String :=
  "<body>" ++ serializeForest children ++ "</body>"

/-- A parse function for runs whose page source is never parsed. -/
def parse0 : String → Option Forest := fun _ => none

/-- Endpoint whose session creations succeed and whose navigation
command fails transiently on every attempt. -/
def epAllNavFail : Endpoint :=
  ⟨fun _ => true, fun _ => false, .complete, ""⟩

/-- Endpoint that rejects the very first session creation. -/
def epNoCreate : Endpoint :=
  ⟨fun _ => false, fun _ => true, .complete, ""⟩

/-- Endpoint where navigation and the ready wait succeed and the page
source served is exactly the unresponsive sentinel string. -/
def epSentinelPage : Endpoint :=
  ⟨fun _ => true, fun _ => true, .complete, siteNotResponding⟩

/-- Children of a body whose descendants carry no text at all. -/
def bodyEmptyText : Forest :=
  .elemCons "div" [] none .nil .nil

/-- Parse function producing `bodyEmptyText`. -/
def parseEmptyBody : String → Option Forest := fun _ => some bodyEmptyText

/-- Children of a body holding the single text `x`. -/
def bodyX : Forest :=
  .textCons "x" .nil

/-- Parse function producing `bodyX`. -/
def parseX : String → Option Forest := fun _ => some bodyX

/-- 334 letters `a`. -/
def aText : String :=
  String.mk (List.replicate 334 'a')

/-- Children of a body holding three nested spans around `aText`: each
of the three selected span elements reports the same text, so the joined
extraction triples it. -/
def bodyNest : Forest :=
  .elemCons "span" [] none
    (.elemCons "span" [] none (.elemCons "span" [] none (.textCons aText .nil) .nil) .nil)
    .nil

/-- The raw HTML the nested-span body was parsed from. -/
def rawNest : String := serializeBody bodyNest

/-- Parse function producing `bodyNest`. -/
def parseNest : String → Option Forest := fun _ => some bodyNest

/-- All text nodes of a forest are markup-free. -/
def textClean : Forest → Bool
  | .nil => true
  | .textCons s r => cleanStr s && textClean r
  | .elemCons _ _ _ cs r => textClean cs && textClean r

/-! ## Theorems -/

/-- The retry loop makes at most `fuel` attempts. -/
theorem safeGetLoop_attempts_le (nav : Nat → NavOutcome) :
    ∀ f i, (safeGetLoop nav i f).2.1 ≤ f := by
  intro f
  induction f with
  | zero => intro i; simp [safeGetLoop]
  | succ f ih =>
    intro i
    rw [safeGetLoop]
    cases h : nav i with
    | success => simp
    | failure e =>
      by_cases hf : f = 0
      · simp [hf]
      · have := ih (i + 1)
        simp only [if_neg hf]
        omega

/-- C1: `_safe_get` makes at most 3 navigation attempts; against a
navigation command that fails with a transient-session failure on every
attempt it makes exactly 3 attempts, returns `false`, and performs a
session teardown-and-replacement after each of the first two failures
but not after the final one (2 replacements); against a navigation
command that first succeeds on attempt `k ≤ 3` it makes exactly `k`
attempts, returns `true` on that success, with one replacement between
each pair of consecutive attempts (`k - 1` replacements). -/
theorem safeGet_retry_bound (nav : Nat → NavOutcome) :
    (safeGet nav).2.1 ≤ 3
    ∧ ((∀ i, i < 3 → ∃ e, nav i = .failure e ∧ e.isTransientSession = true) →
        safeGet nav = (false, 3, 2))
    ∧ (∀ k, 1 ≤ k → k ≤ 3 →
        (∀ i, i + 1 < k → ∃ e, nav i = .failure e ∧ e.isTransientSession = true) →
        nav (k - 1) = .success →
        safeGet nav = (true, k, k - 1)) := by
  refine ⟨safeGetLoop_attempts_le nav 3 0, ?_, ?_⟩
  · intro h
    obtain ⟨e0, h0, -⟩ := h 0 (by omega)
    obtain ⟨e1, h1, -⟩ := h 1 (by omega)
    obtain ⟨e2, h2, -⟩ := h 2 (by omega)
    simp [safeGet, safeGetLoop, h0, h1, h2]
  · intro k hk1 hk3 hfail hsucc
    have hcases : k = 1 ∨ k = 2 ∨ k = 3 := by omega
    rcases hcases with rfl | rfl | rfl
    · simp only [Nat.sub_self] at hsucc
      simp [safeGet, safeGetLoop, hsucc]
    · obtain ⟨e0, h0, -⟩ := hfail 0 (by omega)
      have hsucc1 : nav 1 = .success := hsucc
      simp [safeGet, safeGetLoop, h0, hsucc1]
    · obtain ⟨e0, h0, -⟩ := hfail 0 (by omega)
      obtain ⟨e1, h1, -⟩ := hfail 1 (by omega)
      have hsucc2 : nav 2 = .success := hsucc
      simp [safeGet, safeGetLoop, h0, h1, hsucc2]

/-- Witness for C1: a command failing transiently on every attempt gives
3 attempts, `false`, 2 replacements; a command succeeding on attempt 2
gives 2 attempts, `true`, 1 replacement. -/
theorem safeGet_retry_bound_witness :
    safeGet (fun _ => .failure .timeoutExc) = (false, 3, 2)
    ∧ safeGet (fun i => if i = 1 then .success else .failure .timeoutExc) = (true, 2, 1) := by
  constructor
  · exact (safeGet_retry_bound _).2.1 (fun i _ => ⟨.timeoutExc, rfl, rfl⟩)
  · refine (safeGet_retry_bound _).2.2 2 (by omega) (by omega) ?_ rfl
    intro i hi
    have h0 : i = 0 := by omega
    subst h0
    exact ⟨.timeoutExc, rfl, rfl⟩

/-- C3 counterexample: a navigation command that always fails with the
malformed-URL exception (`InvalidArgumentException`, caught as a
`WebDriverException`) is NOT failed fast: `_safe_get` makes 3 attempts
(not 1) and performs 2 session teardown-and-replacements (not 0). -/
theorem malformed_url_consumes_retries :
    safeGet navMalformed = (false, 3, 2)
    ∧ (safeGet navMalformed).2.1 ≠ 1
    ∧ (safeGet navMalformed).2.2 ≠ 0 :=
  ⟨rfl, by decide, by decide⟩

/-- C3 amended: every caught failure kind — the transient ones and the
malformed-URL `InvalidArgumentException` alike — consumes the full retry
budget: 3 attempts, 2 replacements, result `false`; no distinct
`PermanentError` fail-fast path exists. -/
theorem all_failure_kinds_retried (e : SelExc) :
    safeGet (fun _ => .failure e) = (false, 3, 2) := by
  cases e <;> rfl

/-- C6: denylist removal is by exact attribute-value match, never
substring: an element with `class="cookie-banner"` is removed while one
with `class="cookie-banner-extra"` is kept, and in general an element is
unwanted iff its tag is a removed tag or some denylist token equals one
of its class values or its whole id. -/
theorem denylist_exact_match :
    removeUnwanted
        (.elemCons "div" ["cookie-banner"] none (.textCons "A" .nil)
          (.elemCons "div" ["cookie-banner-extra"] none (.textCons "B" .nil) .nil))
      = .elemCons "div" ["cookie-banner-extra"] none (.textCons "B" .nil) .nil
    ∧ (∀ t cs i, isUnwanted t cs i = true ↔
        (t ∈ unwantedTags ∨ ∃ p ∈ unwantedPatterns, p ∈ cs ∨ i = some p)) := by
  refine ⟨by decide, ?_⟩
  intro t cs i
  simp [isUnwanted, List.any_eq_true]

/-- C10: the outcomes are in-band sentinel strings: an endpoint whose
navigation and ready wait succeed but whose served page source is
exactly the unresponsive sentinel makes `scrape` return the very value
of the `SiteUnresponsive` outcome — indistinguishable from the run of an
endpoint whose navigation always fails. -/
theorem sentinel_page_indistinguishable :
    (scrapeE epSentinelPage parse0 sigma0).1 = .ok (some siteNotResponding)
    ∧ (scrapeE epAllNavFail parse0 sigma0).1 = .ok (some siteNotResponding)
    ∧ (scrapeE epSentinelPage parse0 sigma0).1 = (scrapeE epAllNavFail parse0 sigma0).1
    ∧ epSentinelPage.navOk 0 = true ∧ epSentinelPage.ready = .complete :=
  ⟨rfl, rfl, rfl, rfl, rfl⟩

/-- C2 (code bug): against an endpoint whose navigation fails on all 3
attempts, `scrape` creates 3 sessions and issues 3 quits, but the quits
hit session 0 twice (once inside `_safe_get`, once in the `finally`
clause of `_fetch_url`, whose local `driver` variable never sees the
replacements) and session 1 once — the final replacement session 2 is
never stopped and remains open when `scrape` returns. -/
theorem scrape_leaks_replacement_session :
    scrapeE epAllNavFail parse0 sigma0
      = (.ok (some siteNotResponding), ⟨3, [2], 3, 3⟩)
    ∧ (scrapeE epAllNavFail parse0 sigma0).2.openIds ≠ [] :=
  ⟨rfl, by decide⟩

/-- C7 counterexample: when the remote endpoint rejects the initial
session creation, `start` raises before the `try` block of `_fetch_url`,
and `scrape` propagates the raw `WebDriverException` instead of
resolving to a typed outcome. -/
theorem creation_failure_propagates :
    scrapeE epNoCreate parse0 sigma0 = (.error .webDriverExc, ⟨0, [], 0, 1⟩)
    ∧ isOkE (scrapeE epNoCreate parse0 sigma0).1 = false :=
  ⟨rfl, rfl⟩

/-- C7 amended: whenever the initial session creation succeeds, `scrape`
resolves every modelled endpoint behaviour (navigation failure, dropped
session, replacement-creation failure, ready-state timeout, remote
fault) to an ordinary typed outcome; only an initial creation failure
escapes. -/
theorem scrape_total_when_creation_succeeds (ep : Endpoint)
    (parse : String → Option Forest) (σ : St) (h : ep.createOk σ.starts = true) :
    isOkE (scrapeE ep parse σ).1 = true := by
  have hstart : startE ep σ =
      (.ok σ.nextId, ⟨σ.nextId + 1, σ.openIds ++ [σ.nextId], σ.quits, σ.starts + 1⟩) := by
    simp [startE, h]
  rcases hH : handleAfterNav ep σ.nextId
      (safeGetE ep σ.nextId σ.nextId 0 3
        ⟨σ.nextId + 1, σ.openIds ++ [σ.nextId], σ.quits, σ.starts + 1⟩)
    with ⟨ps, σ2⟩
  simp [scrapeE, fetchUrlE, hstart, hH, isOkE]

/-- Witness for C7 amended: the always-failing-navigation endpoint still
resolves to a typed outcome. -/
theorem scrape_total_witness :
    isOkE (scrapeE epAllNavFail parse0 sigma0).1 = true :=
  scrape_total_when_creation_succeeds epAllNavFail parse0 sigma0 rfl

/-- C8 counterexample: an unexpected release failure that is a
`WebDriverException` but not session-already-gone is swallowed by
`stop`, not propagated as a `SessionTeardownError`. -/
theorem unexpected_release_failure_swallowed :
    stopModel .otherWebDriver = .returned
    ∧ stopModel .otherWebDriver ≠ .raisedTeardown :=
  ⟨rfl, by decide⟩

/-- C8 amended: `stop` is idempotent — the second call on an
already-closed session never faults, the session-already-gone failure is
swallowed — and moreover every `WebDriverException` during release is
swallowed, while a failure outside that hierarchy propagates as the raw
exception, never wrapped as `SessionTeardownError`. -/
theorem stop_idempotent_swallow :
    stopModel (quitBehaviorOf true) = .returned
    ∧ stopModel (quitBehaviorOf false) = .returned
    ∧ stopModel .sessionGone = .returned
    ∧ stopModel .otherWebDriver = .returned
    ∧ stopModel .nonWebDriverFault = .raisedRaw
    ∧ stopModel .nonWebDriverFault ≠ .raisedTeardown :=
  ⟨rfl, rfl, rfl, rfl, rfl, by decide⟩

/-- C4 counterexample: a page with a body but no text extracts to the
empty string — strictly shorter than 1000 characters — yet `scrape`
returns `None` (the `NoContent` outcome), not the `InsufficientContent`
sentinel: Python truthiness sends the empty string down the `None`
branch. -/
theorem empty_extraction_not_insufficient :
    extractParagraphs parseEmptyBody (some "<body><div></div></body>") = some ""
    ∧ scrapeCore parseEmptyBody (some "<body><div></div></body>") = none
    ∧ "".length < 1000
    ∧ (none : Option String) ≠ some irrelevantInfo :=
  ⟨rfl, rfl, by decide, by decide⟩

/-- C4 amended: for a final extracted text `t` from a successful fetch,
`scrape` returns the `InsufficientContent` sentinel iff `t` is non-empty
and strictly shorter than 1000 characters; every `t` of length at least
1000 (the boundary included) is returned as content; the empty `t`
yields `None` (`NoContent`). -/
theorem scrape_quality_gate (parse : String → Option Forest) (ps : Option String)
    (t : String) (hs : ps ≠ some siteNotResponding)
    (hx : extractParagraphs parse ps = some t) :
    (scrapeCore parse ps = some irrelevantInfo ↔ (t ≠ "" ∧ t.length < 1000))
    ∧ (1000 ≤ t.length → scrapeCore parse ps = some t)
    ∧ (t = "" → scrapeCore parse ps = none) := by
  have hcore : scrapeCore parse ps =
      (if t = "" then none else if t.length < 1000 then some irrelevantInfo else some t) := by
    unfold scrapeCore
    rw [if_neg hs, hx]
  refine ⟨?_, ?_, ?_⟩
  · rw [hcore]
    constructor
    · intro h
      by_cases ht : t = ""
      · rw [if_pos ht] at h
        exact absurd h (by decide)
      · rw [if_neg ht] at h
        by_cases hlen : t.length < 1000
        · exact ⟨ht, hlen⟩
        · rw [if_neg hlen] at h
          have heq : t = irrelevantInfo := by
            injection h
          rw [heq] at hlen
          exact absurd (by decide : irrelevantInfo.length < 1000) hlen
    · rintro ⟨ht, hlen⟩
      rw [if_neg ht, if_pos hlen]
  · intro h
    have ht : t ≠ "" := by
      intro h0
      rw [h0] at h
      simp at h
    have hlen : ¬ t.length < 1000 := by omega
    rw [hcore, if_neg ht, if_neg hlen]
  · intro h
    rw [hcore, if_pos h]

/-- Witness for C4 amended: the one-character body text `x` is non-empty
and below the gate, so `scrape` returns the `InsufficientContent`
sentinel. -/
theorem scrape_quality_gate_witness :
    scrapeCore parseX (some "<body>x</body>") = some irrelevantInfo :=
  (scrape_quality_gate parseX (some "<body>x</body>") "x" (by decide) rfl).1.mpr
    (by decide)

/-- C5: whenever the primary paragraph/span extraction (joined trimmed
text of the remaining `p` and `span` elements after noise removal) is
strictly shorter than 1000 characters, `_extract_paragraphs` discards it
and returns the trimmed visible text of the entire (noise-removed) body
instead. -/
theorem extraction_fallback_law (parse : String → Option Forest) (src : String)
    (body : Forest) (hsrc : src.isEmpty = false) (hp : parse src = some body)
    (h : (primaryText body).length < 1000) :
    extractParagraphs parse (some src) = some (pyStrip (getText (removeUnwanted body))) := by
  simp [extractParagraphs, hsrc, hp, extractFromBody, h]

/-- Witness for C5: the body `<body>x</body>` has empty primary
extraction, so the result is the trimmed whole-body text `x`. -/
theorem extraction_fallback_law_witness :
    extractParagraphs parseX (some "<body>x</body>")
      = some (pyStrip (getText (removeUnwanted bodyX))) :=
  extraction_fallback_law parseX "<body>x</body>" bodyX rfl rfl (by decide)

/-- Appending strings preserves markup-freeness on both sides. -/
theorem cleanStr_append (a b : String) :
    cleanStr (a ++ b) = (cleanStr a && cleanStr b) := by
  simp [cleanStr, String.data_append, List.all_append]

/-- The newline separator is markup-free. -/
theorem cleanStr_newline : cleanStr "\n" = true := rfl

/-- Trimming preserves markup-freeness. -/
theorem pyStrip_clean (s : String) (h : cleanStr s = true) :
    cleanStr (pyStrip s) = true := by
  show (((s.data.dropWhile isPyWs).reverse.dropWhile isPyWs).reverse).all _ = true
  rw [List.all_eq_true]
  intro c hc
  rw [cleanStr, List.all_eq_true] at h
  apply h
  exact (List.dropWhile_sublist _).subset
    (List.mem_reverse.mp ((List.dropWhile_sublist _).subset (List.mem_reverse.mp hc)))

/-- The text of a markup-free forest is markup-free. -/
theorem getText_clean (f : Forest) (h : textClean f = true) :
    cleanStr (getText f) = true := by
  induction f with
  | nil => rfl
  | textCons s r ih =>
    simp only [textClean, Bool.and_eq_true] at h
    simp [getText, cleanStr_append, h.1, ih h.2]
  | elemCons t c i cs r ihcs ihr =>
    simp only [textClean, Bool.and_eq_true] at h
    simp [getText, cleanStr_append, ihcs h.1, ihr h.2]

/-- Concatenation of sibling sequences preserves markup-freeness. -/
theorem textClean_appendF (f g : Forest) :
    textClean (appendF f g) = (textClean f && textClean g) := by
  induction f with
  | nil => simp [appendF, textClean]
  | textCons s r ih => simp [appendF, textClean, ih, Bool.and_assoc]
  | elemCons t c i cs r ihcs ihr => simp [appendF, textClean, ihr, Bool.and_assoc]

/-- Noise removal preserves markup-freeness. -/
theorem textClean_removeUnwanted (f : Forest) (h : textClean f = true) :
    textClean (removeUnwanted f) = true := by
  induction f with
  | nil => rfl
  | textCons s r ih =>
    simp only [textClean, Bool.and_eq_true] at h
    simp [removeUnwanted, textClean, h.1, ih h.2]
  | elemCons t c i cs r ihcs ihr =>
    simp only [textClean, Bool.and_eq_true] at h
    by_cases hu : isUnwanted t c i = true
    · simp [removeUnwanted, hu, ihr h.2]
    · simp [removeUnwanted, hu, textClean, ihcs h.1, ihr h.2]

/-- Selection from a markup-free forest is markup-free. -/
theorem textClean_selectTag (t : String) (f : Forest) (h : textClean f = true) :
    textClean (selectTag t f) = true := by
  induction f with
  | nil => rfl
  | textCons s r ih =>
    simp only [textClean, Bool.and_eq_true] at h
    simp [selectTag, ih h.2]
  | elemCons tg c i cs r ihcs ihr =>
    simp only [textClean, Bool.and_eq_true] at h
    by_cases he : tg = t
    · simp [selectTag, he, textClean, textClean_appendF, h.1, ihcs h.1, ihr h.2]
    · simp [selectTag, he, textClean_appendF, ihcs h.1, ihr h.2]

/-- Each per-element trimmed text of a markup-free selection is
markup-free. -/
theorem stripTexts_clean (f : Forest) (h : textClean f = true) :
    ∀ s ∈ stripTexts f, cleanStr s = true := by
  induction f with
  | nil => simp [stripTexts]
  | textCons s r ih =>
    simp only [textClean, Bool.and_eq_true] at h
    intro x hx
    simp only [stripTexts, List.mem_cons] at hx
    rcases hx with rfl | hx
    · exact pyStrip_clean _ h.1
    · exact ih h.2 x hx
  | elemCons tg c i cs r ihcs ihr =>
    simp only [textClean, Bool.and_eq_true] at h
    intro x hx
    simp only [stripTexts, List.mem_cons] at hx
    rcases hx with rfl | hx
    · exact pyStrip_clean _ (getText_clean cs h.1)
    · exact ihr h.2 x hx

/-- Joining markup-free strings with newlines is markup-free. -/
theorem pyJoinNL_clean (l : List String) (h : ∀ s ∈ l, cleanStr s = true) :
    cleanStr (pyJoinNL l) = true := by
  induction l with
  | nil => rfl
  | cons s ss ih =>
    cases ss with
    | nil => simpa [pyJoinNL] using h s (by simp)
    | cons s2 ss2 =>
      have h1 : cleanStr s = true := h s (by simp)
      have h2 : cleanStr (pyJoinNL (s2 :: ss2)) = true :=
        ih (fun x hx => h x (by simp [hx]))
      simp [pyJoinNL, cleanStr_append, h1, h2, cleanStr_newline]

/-- The full extraction result of a markup-free body is markup-free. -/
theorem extractFromBody_clean (body : Forest) (h : textClean body = true) :
    cleanStr (extractFromBody body) = true := by
  have hrm : textClean (removeUnwanted body) = true := textClean_removeUnwanted body h
  have hprim : cleanStr (primaryText body) = true := by
    unfold primaryText extractTextFromParagraphs
    apply pyStrip_clean
    apply pyJoinNL_clean
    intro s hs
    refine stripTexts_clean _ ?_ s hs
    rw [textClean_appendF]
    simp [textClean_selectTag _ _ hrm]
  unfold extractFromBody
  by_cases hlt : (primaryText body).length < 1000
  · simp only [if_pos hlt]
    exact pyStrip_clean _ (getText_clean _ hrm)
  · simp only [if_neg hlt]
    exact hprim

set_option maxRecDepth 40000 in
/-- C9 counterexample: a page of three nested spans around 334 letters
`a` — raw HTML of 386 characters — extracts to a cleaned text of 1004
characters (each selected span reports the same text, tripling it, and
1004 clears the fallback gate), so the cleaned text is strictly LONGER
than the raw HTML. -/
theorem cleaned_text_exceeds_raw_html :
    ((extractParagraphs parseNest (some rawNest)).getD "").length = 1004
    ∧ rawNest.length = 386
    ∧ rawNest.length < ((extractParagraphs parseNest (some rawNest)).getD "").length :=
  ⟨by decide, by decide, by decide⟩

/-- C9 amended: the cleaned text derived from a parsed page with
markup-free text nodes contains no markup (no `<` or `>` character) —
but it is not in general bounded by the raw HTML's length, because
nested `p`/`span` elements contribute their text once per enclosing
selected element. -/
theorem extraction_no_markup (parse : String → Option Forest) (src : String)
    (body : Forest) (t : String) (hp : parse src = some body)
    (hc : textClean body = true)
    (hx : extractParagraphs parse (some src) = some t) :
    cleanStr t = true := by
  rw [show extractParagraphs parse (some src)
        = if src.isEmpty then none else (parse src).map extractFromBody from rfl] at hx
  by_cases hsrc : src.isEmpty
  · simp [hsrc] at hx
  · rw [if_neg hsrc, hp] at hx
    have ht : extractFromBody body = t := by simpa using hx
    rw [← ht]
    exact extractFromBody_clean body hc

/-- Witness for C9 amended: the single-text body `x` extracts to `x`,
which is markup-free. -/
theorem extraction_no_markup_witness :
    cleanStr "x" = true :=
  extraction_no_markup parseX "<body>x</body>" bodyX "x" rfl rfl rfl

end Selenoid
